import Mathlib

/-! auth-server: the query-construction layer and the credential store.

A shallow embedding of `types/types.go`, `api/api.go` and `api/password.go`.

* Go strings are Lean `String`s, `int64` identifiers are `Int`s (no arithmetic is
  performed on them, only the comparison `id > 0`).
* A pointer field of `types.UserPtrs` is an `Option`: `nil` is `none`.
* The relational backend (`database/sql`) and `bcrypt` are external: their answers
  are fields of the `SqlDB` value, respectively a function argument, and every
  statement handed to the backend is appended to `SqlDB.log`.
-/

set_option autoImplicit false

namespace AuthServer

/-! ## `types/types.go` -/

/-- User holds user data. -/
structure User where
  Id : Int := 0
  Email : String := ""
  Username : String := ""
  FirstName : String := ""
  LastName : String := ""
  OtherInfo : String := ""
deriving DecidableEq, Repr

/-- UserPtrs is `User` with every field optional (a pointer in the source). -/
structure UserPtrs where
  Id : Option Int := none
  Email : Option String := none
  Username : Option String := none
  FirstName : Option String := none
  LastName : Option String := none
  OtherInfo : Option String := none
deriving DecidableEq, Repr

/-- GetId returns the Id if not nil, otherwise, 0. -/
def UserPtrs.GetId (up : UserPtrs) : Int :=
  match up.Id with
  | some v => v
  | none => 0

/-- GetEmail returns the Email if not nil, otherwise, an empty string. -/
def UserPtrs.GetEmail (up : UserPtrs) : String :=
  match up.Email with
  | some v => v
  | none => ""

/-- GetUsername returns the Username if not nil, otherwise, an empty string. -/
def UserPtrs.GetUsername (up : UserPtrs) : String :=
  match up.Username with
  | some v => v
  | none => ""

/-- GetFirstName returns the FirstName if not nil, otherwise, an empty string. -/
def UserPtrs.GetFirstName (up : UserPtrs) : String :=
  match up.FirstName with
  | some v => v
  | none => ""

/-- GetLastName returns the LastName if not nil, otherwise, an empty string. -/
def UserPtrs.GetLastName (up : UserPtrs) : String :=
  match up.LastName with
  | some v => v
  | none => ""

/-- GetOtherInfo returns the OtherInfo if not nil, otherwise, an empty string. -/
def UserPtrs.GetOtherInfo (up : UserPtrs) : String :=
  match up.OtherInfo with
  | some v => v
  | none => ""

/-! ## Library functions used by `api/api.go` -/

/-- Go `strings.Join`: nothing for no element, otherwise the first element
followed by, for each further element, the separator and the element. -/
def Join : List String → String → String
  | [], _ => ""
  | e :: rest, sep => rest.foldl (fun b s => b ++ sep ++ s) e

/-- The verb `%d` of `fmt.Sprintf` on an `int64`: the decimal numeral. -/
def formatD (i : Int) : String :=
  toString i

/-! ## `api/api.go`: the fragment builder -/

/-- Translation of `partsFromUserPtrs`: six guarded appends, in source order. -/
def partsFromUserPtrs (user : UserPtrs) : List String :=
  let clauses : List String := []
  let clauses := if user.GetId > 0 then clauses ++ ["id=" ++ formatD user.GetId] else clauses
  let clauses := if user.Email ≠ none then clauses ++ ["email=" ++ user.GetEmail] else clauses
  let clauses :=
    if user.Username ≠ none then clauses ++ ["username=" ++ user.GetUsername] else clauses
  let clauses :=
    if user.FirstName ≠ none then clauses ++ ["first_name=" ++ user.GetFirstName] else clauses
  let clauses :=
    if user.LastName ≠ none then clauses ++ ["last_name=" ++ user.GetLastName] else clauses
  let clauses :=
    if user.OtherInfo ≠ none then clauses ++ ["other_info=" ++ user.GetOtherInfo] else clauses
  clauses

/-- Translation of `whereClauseFromUserPtrs`: a where clause if needed (prefixed by
`" WHERE "`) or an empty string. -/
def whereClauseFromUserPtrs (user : UserPtrs) : String :=
  let clauses := partsFromUserPtrs user
  if clauses.length ≠ 0 then " WHERE " ++ Join clauses " AND " else ""

/-! ## The specification's reading of the fragment builder -/

/-- The fragment the specification assigns to the `id` field: present and strictly
positive gives `id=<decimal>`, anything else gives nothing. -/
def idFragment (id : Option Int) : Option String :=
  match id with
  | some v => if 0 < v then some ("id=" ++ formatD v) else none
  | none => none

/-- The fragment the specification assigns to a string field stored in `column`:
present gives `<column>=<value>`, absent gives nothing. -/
def stringFragment (column : String) (field : Option String) : Option String :=
  match field with
  | some v => some (column ++ "=" ++ v)
  | none => none

/-- The specification's `BuildComparisons`: the six fields visited in the fixed order
id, email, username, first_name, last_name, other_info, keeping the fragments of the
fields that contribute. -/
def BuildComparisons (F : UserPtrs) : List String :=
  [ idFragment F.Id,
    stringFragment "email" F.Email,
    stringFragment "username" F.Username,
    stringFragment "first_name" F.FirstName,
    stringFragment "last_name" F.LastName,
    stringFragment "other_info" F.OtherInfo ].reduceOption

/-! ## Go `error` values -/

/-- The `error` values that occur in the package: the sentinels of `database/sql`,
of this package and of `bcrypt`, any other leaf error (known by its text), an error
that wraps another one (it has an `Unwrap` method), and `*InsertError`, which holds
an `error` that may be nil and has no `Unwrap` method. -/
inductive GoError where
  | ErrNoRows
  | ErrNoUser
  | ErrMismatchedHashAndPassword
  | ErrPasswordTooLong
  | other (text : String)
  | wrap (text : String) (inner : GoError)
  | InsertError (Err : GoError)
  | InsertErrorNil
deriving DecidableEq, Repr

/-- Go `errors.Is`: the error or one reached from it by unwrapping equals the
target. -/
def errorsIs : GoError → GoError → Bool
  | GoError.wrap text inner, target =>
    if GoError.wrap text inner = target then true else errorsIs inner target
  | err, target => decide (err = target)

/-- The `Error()` method. For `*InsertError` this is the method of `api/api.go`:
the text of the held error, or the empty string when it holds nil. -/
def GoError.Error : GoError → String
  | GoError.ErrNoRows => "sql: no rows in result set"
  | GoError.ErrNoUser => "no user found"
  | GoError.ErrMismatchedHashAndPassword =>
    "crypto/bcrypt: hashedPassword is not the hash of the given password"
  | GoError.ErrPasswordTooLong => "bcrypt: password length exceeds 72 bytes"
  | GoError.other text => text
  | GoError.wrap text _ => text
  | GoError.InsertError Err => Err.Error
  | GoError.InsertErrorNil => ""

/-! ## The relational backend (`database/sql`) -/

/-- A value of a result column or a statement argument. -/
inductive SqlValue where
  | int (i : Int)
  | text (s : String)
  | null
deriving DecidableEq, Repr

/-- A column of the current result row: its name, as `Columns()` reports it, and
its value. -/
structure Column where
  name : String
  value : SqlValue
deriving DecidableEq, Repr

/-- A statement handed to the backend: its text and its arguments. -/
structure Stmt where
  text : String
  args : List SqlValue
deriving DecidableEq, Repr

/-- Go `sql.Result`, as far as the package uses it: the outcome of
`LastInsertId()`. -/
structure Result where
  LastInsertId : Except GoError Int

/-- Go `*sql.Row`: the deferred error of the query, the rows of the result, the
error `rows.Err()` reports when there is no row, and the error of closing. -/
structure Row where
  err : Option GoError
  rows : List (List Column)
  rowsErr : Option GoError
  closeErr : Option GoError

/-- Go `*sql.DB`: the statements issued so far and the answers of the backend,
each a function of the statements issued before and of the statement at hand. -/
structure SqlDB where
  log : List Stmt
  exec : List Stmt → Stmt → Except GoError Result
  queryRow : List Stmt → Stmt → Row
  query : List Stmt → Stmt → Except GoError (List (List Column))

/-- `db.Exec(text, args...)`. -/
def SqlDB.Exec (db : SqlDB) (text : String) (args : List SqlValue) :
    Except GoError Result × SqlDB :=
  (db.exec db.log ⟨text, args⟩, { db with log := db.log ++ [⟨text, args⟩] })

/-- `db.QueryRow(text)`. -/
def SqlDB.QueryRow (db : SqlDB) (text : String) : Row × SqlDB :=
  (db.queryRow db.log ⟨text, []⟩, { db with log := db.log ++ [⟨text, []⟩] })

/-- `db.Query(text)`. -/
def SqlDB.Query (db : SqlDB) (text : String) :
    Except GoError (List (List Column)) × SqlDB :=
  (db.query db.log ⟨text, []⟩, { db with log := db.log ++ [⟨text, []⟩] })

/-- A destination of `Scan`: a pointer to an `int64` or to a `string` inside a
value of type `σ`, given by the assignment through it. -/
inductive Dest (σ : Type) where
  | int64 (set : σ → Int → σ)
  | string (set : σ → String → σ)

/-- Go `strconv.ErrSyntax`. -/
def ErrSyntax : GoError :=
  GoError.other "invalid syntax"

/-- Go `strconv.ErrRange`. -/
def ErrRange : GoError :=
  GoError.other "value out of range"

/-- The loop of Go `strconv.ParseUint(s, 10, 64)`: a character that is not a decimal
digit is a syntax error, a value beyond 64 bits is a range error, whichever is met
first. -/
def parseUintLoop (n : Nat) : List Char → Except GoError Nat
  | [] => Except.ok n
  | c :: cs =>
    if c.isDigit then
      if 10 * n + (c.toNat - 48) < 2 ^ 64 then parseUintLoop (10 * n + (c.toNat - 48)) cs
      else Except.error ErrRange
    else Except.error ErrSyntax

/-- Go `strconv.ParseUint(s, 10, 64)` on the characters of `s`. -/
def ParseUint (s : List Char) : Except GoError Nat :=
  match s with
  | [] => Except.error ErrSyntax
  | cs => parseUintLoop 0 cs

/-- The end of Go `strconv.ParseInt`: the magnitude must fit `int64` with the
sign. -/
def signedOfMagnitude (neg : Bool) (un : Except GoError Nat) : Except GoError Int :=
  match un with
  | Except.error e => Except.error e
  | Except.ok n =>
    if neg then
      if n ≤ 2 ^ 63 then Except.ok (- Int.ofNat n) else Except.error ErrRange
    else
      if n < 2 ^ 63 then Except.ok (Int.ofNat n) else Except.error ErrRange

/-- Go `strconv.ParseInt(s, 10, 64)`, with the error `strconvErr` keeps of it: an
optional sign, then one or more decimal digits, the value within the range of
`int64`. -/
def ParseInt (s : String) : Except GoError Int :=
  match s.data with
  | [] => Except.error ErrSyntax
  | '+' :: ds => signedOfMagnitude false (ParseUint ds)
  | '-' :: ds => signedOfMagnitude true (ParseUint ds)
  | ds => signedOfMagnitude false (ParseUint ds)

/-- A hexadecimal digit, lower case. -/
def hexDigit (n : Nat) : Char :=
  if n < 10 then Char.ofNat (48 + n) else Char.ofNat (87 + n)

/-- Go `strconv.Quote` on one rune: the quote and the backslash receive a backslash,
a printable rune stands for itself, the control characters are written `\a`, `\b`,
`\f`, `\n`, `\r`, `\t`, `\v` or `\x` and two digits, another unprintable rune `\u`
and four digits. Printability is that of `unicode.IsPrint` for the runes below
U+0100; the runes from U+0100 on are taken as printable. -/
def quoteRune (c : Char) : List Char :=
  let n := c.toNat
  if n = 34 ∨ n = 92 then [Char.ofNat 92, c]
  else if (32 ≤ n ∧ n < 127) ∨ (161 ≤ n ∧ n ≠ 173) then [c]
  else if n = 7 then [Char.ofNat 92, 'a']
  else if n = 8 then [Char.ofNat 92, 'b']
  else if n = 12 then [Char.ofNat 92, 'f']
  else if n = 10 then [Char.ofNat 92, 'n']
  else if n = 13 then [Char.ofNat 92, 'r']
  else if n = 9 then [Char.ofNat 92, 't']
  else if n = 11 then [Char.ofNat 92, 'v']
  else if n < 32 ∨ n = 127 then [Char.ofNat 92, 'x', hexDigit (n / 16), hexDigit (n % 16)]
  else [Char.ofNat 92, 'u', '0', '0', hexDigit (n / 16), hexDigit (n % 16)]

/-- Go `strconv.Quote`, the verb `%q` of `fmt` on a string. -/
def Quote (s : String) : String :=
  String.mk (Char.ofNat 34 :: s.data.foldr (fun c acc => quoteRune c ++ acc) [Char.ofNat 34])

/-- Go `convertAssign` for the two kinds of destination the package scans into. -/
def convertAssign {σ : Type} (d : Dest σ) (src : SqlValue) (s : σ) : Except GoError σ :=
  match d, src with
  | Dest.string set, SqlValue.text v => Except.ok (set s v)
  | Dest.string set, SqlValue.int i => Except.ok (set s (formatD i))
  | Dest.string _, SqlValue.null =>
    Except.error (GoError.other "converting NULL to string is unsupported")
  | Dest.int64 set, SqlValue.int i => Except.ok (set s i)
  | Dest.int64 set, SqlValue.text v =>
    match ParseInt v with
    | Except.ok i => Except.ok (set s i)
    | Except.error e =>
      Except.error (GoError.other ("converting driver.Value type string (" ++ Quote v
        ++ ") to a int64: " ++ e.Error))
  | Dest.int64 _, SqlValue.null =>
    Except.error (GoError.other "converting NULL to int64 is unsupported")

/-- The loop of `Rows.Scan`: the columns are converted into the destinations one
after the other; the first failure stops it, the earlier assignments stay. The error
wraps the failure of the conversion and names the column. -/
def scanColumns {σ : Type} (i : Nat) :
    List Column → List (Dest σ) → σ → σ × Option GoError
  | c :: cs, d :: ds, s =>
    match convertAssign d c.value s with
    | Except.error e =>
      (s, some (GoError.wrap ("sql: Scan error on column index " ++ toString i ++ ", name "
        ++ Quote c.name ++ ": " ++ e.Error) e))
    | Except.ok s2 => scanColumns (i + 1) cs ds s2
  | _, _, s => (s, none)

/-- Go `Rows.Scan(dest...)` on the current row: the number of destinations must be
the number of columns, otherwise nothing is assigned and an error is returned. -/
def RowsScan {σ : Type} (cols : List Column) (dests : List (Dest σ)) (s : σ) :
    σ × Option GoError :=
  if dests.length ≠ cols.length then
    (s, some (GoError.other ("sql: expected " ++ toString cols.length
      ++ " destination arguments in Scan, not " ++ toString dests.length)))
  else scanColumns 0 cols dests s

/-- Go `Row.Scan(dest...)`: the deferred error of the query if there is one,
`sql.ErrNoRows` (or the iteration error) if there is no row, otherwise the scan of
the first row followed by closing the result. -/
def Row.Scan {σ : Type} (r : Row) (dests : List (Dest σ)) (s : σ) : σ × Option GoError :=
  match r.err with
  | some e => (s, some e)
  | none =>
    match r.rows with
    | [] =>
      match r.rowsErr with
      | some e => (s, some e)
      | none => (s, some GoError.ErrNoRows)
    | cols :: _ =>
      match RowsScan cols dests s with
      | (s2, some e) => (s2, some e)
      | (s2, none) => (s2, r.closeErr)

/-! ## `api/password.go` -/

/-- The hashing primitive: `bcrypt.CompareHashAndPassword(hash, password)`, nil
(`none`) when the password matches the hash. -/
structure Bcrypt where
  CompareHashAndPassword : String → String → Option GoError

/-- Translation of `CheckPassword(pwd, hash)`. -/
def CheckPassword (bcrypt : Bcrypt) (pwd hash : String) : Bool × Option GoError :=
  match bcrypt.CompareHashAndPassword hash pwd with
  | none => (true, none)
  | some err =>
    if errorsIs err GoError.ErrMismatchedHashAndPassword
        || errorsIs err GoError.ErrPasswordTooLong then
      (false, none)
    else (false, some err)

/-! ## `api/api.go`: the credential store -/

/-- DBClient holds the connection to the backend. -/
structure DBClient where
  DB : SqlDB

/-- Translation of `NewDBClient`. -/
def NewDBClient (db : SqlDB) : DBClient :=
  { DB := db }

/-- The statement text of `NewUser`. -/
def insertStmt : String :=
  "INSERT INTO users(email,username,password_hash,firstname,lastname,other_info)\n    VALUES (?,?,?,?,?,?)"

/-- The statement text of `GetUser` and `GetUsers`, before the where clause. -/
def selectStmt : String :=
  "SELECT users(id,email,username,firstname,lastname,other_info) FROM users"

/-- The arguments of the statement of `NewUser`, in source order. -/
def insertArgs (user : User) (pwdHash : String) : List SqlValue :=
  [SqlValue.text user.Email, SqlValue.text user.Username, SqlValue.text pwdHash,
   SqlValue.text user.FirstName, SqlValue.text user.LastName,
   SqlValue.text user.OtherInfo]

/-- Translation of `DBClient.NewUser`: the returned error, the user after the call
and the client after the call. -/
def DBClient.NewUser (dbc : DBClient) (user : User) (pwdHash : String) :
    (Option GoError × User) × DBClient :=
  let (res, db) := dbc.DB.Exec insertStmt (insertArgs user pwdHash)
  match res with
  | Except.error err => ((some (GoError.InsertError err), user), { DB := db })
  | Except.ok res =>
    match res.LastInsertId with
    | Except.error err => ((some err, user), { DB := db })
    | Except.ok id => ((none, { user with Id := id }), { DB := db })

/-- The destinations `GetUser` and `GetUsers` pass to `Scan`, in source order:
`&user.Id, &user.Email, &user.Email, &user.Username, &user.FirstName,
&user.LastName, &user.OtherInfo`. -/
def userDests : List (Dest User) :=
  [ Dest.int64 (fun u v => { u with Id := v }),
    Dest.string (fun u v => { u with Email := v }),
    Dest.string (fun u v => { u with Email := v }),
    Dest.string (fun u v => { u with Username := v }),
    Dest.string (fun u v => { u with FirstName := v }),
    Dest.string (fun u v => { u with LastName := v }),
    Dest.string (fun u v => { u with OtherInfo := v }) ]

/-- Translation of `DBClient.GetUser`: the returned user (nil is `none`), the
returned error and the client after the call. -/
def DBClient.GetUser (dbc : DBClient) (userPtrs : UserPtrs) :
    (Option User × Option GoError) × DBClient :=
  let clause := whereClauseFromUserPtrs userPtrs
  let (row, db) := dbc.DB.QueryRow (selectStmt ++ clause)
  let user : User := {}
  let (user, err) := row.Scan userDests user
  match err with
  | some err =>
    if errorsIs err GoError.ErrNoRows then ((none, some GoError.ErrNoUser), { DB := db })
    else ((none, some err), { DB := db })
  | none => ((some user, none), { DB := db })

/-- The body of the loop `for rows.Next()` of `GetUsers`, on one row: the state is
the slice `users` and the variable `retErr`. -/
def getUsersStep (st : List User × Option GoError) (cols : List Column) :
    List User × Option GoError :=
  let (users, retErr) := st
  let user : User := {}
  let (user, err) := RowsScan cols userDests user
  match err with
  | some err =>
    match retErr with
    | none => (users, some err)
    | some _ => (users, retErr)
  | none => (users ++ [user], retErr)

/-- Translation of `DBClient.GetUsers`: the returned slice (nil is the empty
list), the returned error and the client after the call. The last statement of the
source is `return users, nil`. -/
def DBClient.GetUsers (dbc : DBClient) (userPtrs : UserPtrs) :
    (List User × Option GoError) × DBClient :=
  let clause := whereClauseFromUserPtrs userPtrs
  let (rows, db) := dbc.DB.Query (selectStmt ++ clause)
  match rows with
  | Except.error retErr =>
    if errorsIs retErr GoError.ErrNoRows then (([], some GoError.ErrNoUser), { DB := db })
    else (([], some retErr), { DB := db })
  | Except.ok rows =>
    let (users, _retErr) := rows.foldl getUsersStep ([], none)
    ((users, none), { DB := db })

/-- Translation of `DBClient.CheckPassword`. -/
def DBClient.CheckPassword (dbc : DBClient) (bcrypt : Bcrypt) (user : UserPtrs)
    (pwdHash : String) : (Bool × Option GoError) × DBClient :=
  let clause := whereClauseFromUserPtrs user
  let (row, db) := dbc.DB.QueryRow ("SELECT password_hash FROM users" ++ clause)
  let hash := ""
  let (hash, err) := row.Scan [Dest.string (fun _ v => v)] hash
  match err with
  | some err =>
    if errorsIs err GoError.ErrNoRows then ((false, some GoError.ErrNoUser), { DB := db })
    else ((false, some err), { DB := db })
  | none => (AuthServer.CheckPassword bcrypt pwdHash hash, { DB := db })

/-- Translation of `DBClient.EditUser`: the returned error, `newInfo` after the call
(its `Id` is cleared and then restored) and the client after the call. -/
def DBClient.EditUser (dbc : DBClient) (userInfo newInfo : UserPtrs) :
    (Option GoError × UserPtrs) × DBClient :=
  let id := newInfo.Id
  let newInfo := { newInfo with Id := none }
  let parts := partsFromUserPtrs newInfo
  let newInfo := { newInfo with Id := id }
  if parts.length = 0 then ((none, newInfo), dbc)
  else
    let sets := Join parts ","
    let clause := whereClauseFromUserPtrs userInfo
    let (res, db) := dbc.DB.Exec ("UPDATE users SET " ++ sets ++ clause ++ " LIMIT 1") []
    match res with
    | Except.error err => ((some err, newInfo), { DB := db })
    | Except.ok _ => ((none, newInfo), { DB := db })

/-- Translation of `DBClient.EditUsers`. -/
def DBClient.EditUsers (dbc : DBClient) (userInfo newInfo : UserPtrs) :
    (Option GoError × UserPtrs) × DBClient :=
  let id := newInfo.Id
  let newInfo := { newInfo with Id := none }
  let parts := partsFromUserPtrs newInfo
  let newInfo := { newInfo with Id := id }
  if parts.length = 0 then ((none, newInfo), dbc)
  else
    let sets := Join parts ","
    let clause := whereClauseFromUserPtrs userInfo
    let (res, db) := dbc.DB.Exec ("UPDATE users SET " ++ sets ++ clause) []
    match res with
    | Except.error err => ((some err, newInfo), { DB := db })
    | Except.ok _ => ((none, newInfo), { DB := db })

/-- The constant `createTableStmt`. -/
def createTableStmt : String :=
  "\nCREATE TABLE IF NOT EXISTS users (\n  id INTEGER PRIMARY KEY AUTOINCREMENT,\n  email TEXT %UNIQUE_EMAIL% NOT NULL,\n  username TEXT %UNIQUE_USERNAME% NOT NULL,\n  password_hash TEXT NOT NULL,\n  firstname TEXT NOT NULL,\n  lastname TEXT NOT NULL,\n  other_info TEXT NOT NULL,\n);\n"

/-! ## Reading the column names out of the schema -/

/-- The lines of a text. -/
def splitLines : List Char → List (List Char)
  | [] => [[]]
  | c :: cs =>
    match splitLines cs with
    | [] => [[]]
    | l :: ls => if c = '\n' then [] :: l :: ls else (c :: l) :: ls

/-- A line of the form `  <name> <type and constraints>` declares the column
`<name>`; no other line declares one. -/
def columnOfLine : List Char → Option String
  | ' ' :: ' ' :: rest => some (String.mk (rest.takeWhile (fun c => c ≠ ' ')))
  | _ => none

/-- The column names a `CREATE TABLE` text declares, in order. -/
def declaredColumns (stmt : String) : List String :=
  (splitLines stmt.data).filterMap columnOfLine

/-- The columns of the table `users`. -/
def usersColumns : List String :=
  declaredColumns createTableStmt

/-- The specification's fragment form `column=value` over a set of columns: the
text is some column of the set, then `=`, then any value. -/
def IsColumnFragment (columns : List String) (fragment : String) : Prop :=
  ∃ c ∈ columns, ∃ v : String, fragment = c ++ "=" ++ v

/-! ## The specification's reading of the SET clause -/

/-- The specification's `BuildSetClause`: the fragment construction with the `id`
field forcibly excluded regardless of presence, as a list. -/
def setFragments (P : UserPtrs) : List String :=
  [ stringFragment "email" P.Email,
    stringFragment "username" P.Username,
    stringFragment "first_name" P.FirstName,
    stringFragment "last_name" P.LastName,
    stringFragment "other_info" P.OtherInfo ].reduceOption

/-- The specification's `BuildSetClause`: the fragments joined by `,`. -/
def BuildSetClause (P : UserPtrs) : String :=
  Join (setFragments P) ","

/-- Two patches differ at most in their `Id` field. -/
def SameButId (P Q : UserPtrs) : Prop :=
  P.Email = Q.Email ∧ P.Username = Q.Username ∧ P.FirstName = Q.FirstName
    ∧ P.LastName = Q.LastName ∧ P.OtherInfo = Q.OtherInfo

/-- The text of the one statement `UpdateOne` issues according to the
specification. -/
def updateOneText (F P : UserPtrs) : String :=
  "UPDATE users SET " ++ BuildSetClause P ++ whereClauseFromUserPtrs F ++ " LIMIT 1"

/-- The text of the one statement `UpdateAll` issues according to the
specification. -/
def updateAllText (F P : UserPtrs) : String :=
  "UPDATE users SET " ++ BuildSetClause P ++ whereClauseFromUserPtrs F

/-- No field other than `Id` is present in the patch. -/
def NoSettableField (P : UserPtrs) : Prop :=
  P.Email = none ∧ P.Username = none ∧ P.FirstName = none ∧ P.LastName = none
    ∧ P.OtherInfo = none

/-- The outcome of the row scan inside `GetUser`: the scanned user and the error. -/
def DBClient.userScan (dbc : DBClient) (F : UserPtrs) : User × Option GoError :=
  (dbc.DB.QueryRow (selectStmt ++ whereClauseFromUserPtrs F)).1.Scan userDests {}

/-- The outcome of the row scan inside `DBClient.CheckPassword`: the scanned hash and
the error. -/
def DBClient.hashScan (dbc : DBClient) (F : UserPtrs) : String × Option GoError :=
  (dbc.DB.QueryRow ("SELECT password_hash FROM users" ++ whereClauseFromUserPtrs F)).1.Scan
    [Dest.string (fun _ v => v)] ""

/-- The outcome of the INSERT of `NewUser`. -/
def DBClient.insertOutcome (dbc : DBClient) (user : User) (pwdHash : String) :
    Except GoError Result :=
  dbc.DB.exec dbc.DB.log ⟨insertStmt, insertArgs user pwdHash⟩

/-! ## Sample values -/

/-- The six selected columns `id, email, username, firstname, lastname, other_info`
of one stored user. -/
def sampleRow : List Column :=
  [⟨"id", SqlValue.int 1⟩, ⟨"email", SqlValue.text "a@x.com"⟩,
   ⟨"username", SqlValue.text "bob"⟩, ⟨"firstname", SqlValue.text "Bob"⟩,
   ⟨"lastname", SqlValue.text "Builder"⟩, ⟨"other_info", SqlValue.text "info"⟩]

/-- A backend that answers every insert with the new row id 1 and every query with
the one row `sampleRow`. -/
def sampleDB : SqlDB :=
  { log := [],
    exec := fun _ _ => Except.ok { LastInsertId := Except.ok 1 },
    queryRow := fun _ _ =>
      { err := none, rows := [sampleRow], rowsErr := none, closeErr := none },
    query := fun _ _ => Except.ok [sampleRow] }

/-- A backend whose every statement fails with the error `disk I/O error`, and whose
every single-row query finds no row. -/
def failingDB : SqlDB :=
  { log := [],
    exec := fun _ _ => Except.error (GoError.other "disk I/O error"),
    queryRow := fun _ _ => { err := none, rows := [], rowsErr := none, closeErr := none },
    query := fun _ _ => Except.error (GoError.other "disk I/O error") }

/-- A backend whose every single-row query answers the one column `secret`. -/
def hashDB : SqlDB :=
  { log := [],
    exec := fun _ _ => Except.ok { LastInsertId := Except.error (GoError.other "no id") },
    queryRow := fun _ _ =>
      { err := none, rows := [[⟨"password_hash", SqlValue.text "secret"⟩]], rowsErr := none, closeErr := none },
    query := fun _ _ => Except.ok [] }

/-- A hashing primitive that accepts exactly the password equal to the hash text. -/
def sampleBcrypt : Bcrypt :=
  { CompareHashAndPassword := fun hash pwd =>
      if hash = pwd then none else some GoError.ErrMismatchedHashAndPassword }

/-- The user the sample backend stores. -/
def sampleUser : User :=
  { Id := 0, Email := "a@x.com", Username := "bob", FirstName := "Bob",
    LastName := "Builder", OtherInfo := "info" }

/-! ## Theorems: the fragment builder -/

theorem reduceOption_cons_some {α : Type} (a : α) (l : List (Option α)) :
    (some a :: l).reduceOption = a :: l.reduceOption := by
  simp [List.reduceOption]

theorem reduceOption_cons_none {α : Type} (l : List (Option α)) :
    (none :: l).reduceOption = l.reduceOption := by
  simp [List.reduceOption]

/-- The code's fragment list is the specification's `BuildComparisons`. -/
theorem partsFromUserPtrs_eq_BuildComparisons (F : UserPtrs) :
    partsFromUserPtrs F = BuildComparisons F := by
  rcases F with ⟨id, e, u, f, l, o⟩
  have hid : (if UserPtrs.GetId ⟨id, e, u, f, l, o⟩ > 0
      then ([] : List String) ++ ["id=" ++ formatD (UserPtrs.GetId ⟨id, e, u, f, l, o⟩)]
      else []) = (idFragment id).toList := by
    cases id with
    | none => simp [UserPtrs.GetId, idFragment]
    | some v =>
      by_cases hv : 0 < v
      · simp [UserPtrs.GetId, idFragment, hv]
      · simp [UserPtrs.GetId, idFragment, hv]
  unfold partsFromUserPtrs BuildComparisons
  simp only [hid]
  cases idFragment id <;> cases e <;> cases u <;> cases f <;> cases l <;> cases o <;>
    simp [stringFragment, UserPtrs.GetEmail, UserPtrs.GetUsername, UserPtrs.GetFirstName,
      UserPtrs.GetLastName, UserPtrs.GetOtherInfo, reduceOption_cons_some,
      reduceOption_cons_none, List.reduceOption_nil]

/-- C1: for every filter, `partsFromUserPtrs` is the list obtained by visiting the
fields in the order id, email, username, first_name, last_name, other_info and
keeping one fragment per contributing field: `id=<decimal>` iff the id is present
and strictly positive, `<column>=<value>` iff the string field is present. -/
theorem partsFromUserPtrs_fixed_order (F : UserPtrs) :
    partsFromUserPtrs F =
      (idFragment F.Id).toList ++ (stringFragment "email" F.Email).toList
        ++ (stringFragment "username" F.Username).toList
        ++ (stringFragment "first_name" F.FirstName).toList
        ++ (stringFragment "last_name" F.LastName).toList
        ++ (stringFragment "other_info" F.OtherInfo).toList
    ∧ (∀ s, idFragment F.Id = some s ↔ ∃ v, F.Id = some v ∧ 0 < v ∧ s = "id=" ++ formatD v)
    ∧ (∀ c field s, stringFragment c field = some s ↔ ∃ v, field = some v ∧ s = c ++ "=" ++ v)
    ∧ (idFragment F.Id = none ↔ ¬ ∃ v, F.Id = some v ∧ 0 < v)
    ∧ (∀ c field, stringFragment c field = none ↔ field = none) := by
  refine ⟨?_, ?_, ?_, ?_, ?_⟩
  · rw [partsFromUserPtrs_eq_BuildComparisons]
    unfold BuildComparisons
    cases idFragment F.Id <;> cases stringFragment "email" F.Email <;>
      cases stringFragment "username" F.Username <;>
      cases stringFragment "first_name" F.FirstName <;>
      cases stringFragment "last_name" F.LastName <;>
      cases stringFragment "other_info" F.OtherInfo <;>
      simp [reduceOption_cons_some, reduceOption_cons_none, List.reduceOption_nil]
  · intro s
    cases h : F.Id with
    | none => simp [idFragment]
    | some v =>
      by_cases hv : 0 < v
      · simp [idFragment, hv, eq_comm]
      · simp [idFragment, hv]
  · intro c field s
    cases field with
    | none => simp [stringFragment]
    | some v => simp [stringFragment, eq_comm]
  · cases h : F.Id with
    | none => simp [idFragment]
    | some v =>
      by_cases hv : 0 < v
      · simp [idFragment, hv]
      · simp [idFragment, hv]
  · intro c field
    cases field <;> simp [stringFragment]

/-- Go `strings.Join` is the library `String.intercalate`. -/
theorem Join_eq_intercalate (l : List String) (sep : String) :
    Join l sep = sep.intercalate l := by
  cases l with
  | nil => rfl
  | cons e rest =>
    show rest.foldl (fun b s => b ++ sep ++ s) e = String.intercalate.go e sep rest
    induction rest generalizing e with
    | nil => rfl
    | cons a rest ih => simpa [String.intercalate.go] using ih (e ++ sep ++ a)

/-- C3: the WHERE clause is empty when there is no fragment, otherwise it is
`" WHERE "` followed by the fragments joined by `" AND "`; a filter with no field
present has the empty WHERE clause. -/
theorem whereClauseFromUserPtrs_spec (F : UserPtrs) :
    (partsFromUserPtrs F = [] → whereClauseFromUserPtrs F = "")
    ∧ (partsFromUserPtrs F ≠ [] →
        whereClauseFromUserPtrs F = " WHERE " ++ Join (partsFromUserPtrs F) " AND ")
    ∧ (F.Id = none → F.Email = none → F.Username = none → F.FirstName = none →
        F.LastName = none → F.OtherInfo = none → whereClauseFromUserPtrs F = "") := by
  refine ⟨?_, ?_, ?_⟩
  · intro h
    simp [whereClauseFromUserPtrs, h]
  · intro h
    simp [whereClauseFromUserPtrs, h]
  · intro h1 h2 h3 h4 h5 h6
    have hp : partsFromUserPtrs F = [] := by
      rw [partsFromUserPtrs_eq_BuildComparisons]
      simp [BuildComparisons, h1, h2, h3, h4, h5, h6, idFragment, stringFragment,
        reduceOption_cons_none]
    simp [whereClauseFromUserPtrs, hp]

/-- Witness of C3 on the empty filter and on a filter with two fields. -/
theorem whereClauseFromUserPtrs_spec_witness :
    whereClauseFromUserPtrs {} = ""
    ∧ whereClauseFromUserPtrs { Id := some 7, Email := some "a" } = " WHERE id=7 AND email=a"
    ∧ whereClauseFromUserPtrs { Id := some 0 } = "" :=
  ⟨(whereClauseFromUserPtrs_spec {}).2.2 rfl rfl rfl rfl rfl rfl,
   ((whereClauseFromUserPtrs_spec { Id := some 7, Email := some "a" }).2.1
      (by decide)).trans (by decide),
   (whereClauseFromUserPtrs_spec { Id := some 0 }).1 (by decide)⟩

/-! ## Theorems: the update patch -/

/-- With its `Id` cleared, a patch yields the specification's SET fragments. -/
theorem partsFromUserPtrs_clearId (P : UserPtrs) :
    partsFromUserPtrs { P with Id := none } = setFragments P := by
  rw [partsFromUserPtrs_eq_BuildComparisons]
  simp [BuildComparisons, setFragments, idFragment, reduceOption_cons_none]

theorem setFragments_congr (P Q : UserPtrs) (h : SameButId P Q) :
    setFragments P = setFragments Q := by
  obtain ⟨h1, h2, h3, h4, h5⟩ := h
  simp [setFragments, h1, h2, h3, h4, h5]

theorem setFragments_eq_nil_iff (P : UserPtrs) :
    setFragments P = [] ↔ NoSettableField P := by
  rcases P with ⟨id, e, u, f, l, o⟩
  cases e <;> cases u <;> cases f <;> cases l <;> cases o <;>
    simp [setFragments, NoSettableField, stringFragment, reduceOption_cons_some,
      reduceOption_cons_none]

/-- Every SET fragment is `<column>=<value>` for one of the five string columns the
source names. -/
theorem setFragments_form (P : UserPtrs) (f : String) (hf : f ∈ setFragments P) :
    ∃ c ∈ ["email", "username", "first_name", "last_name", "other_info"],
      ∃ v : String, f = c ++ "=" ++ v := by
  rcases P with ⟨id, e, u, fn, l, o⟩
  simp only [setFragments, List.reduceOption_mem_iff, List.mem_cons, List.mem_singleton,
    List.not_mem_nil, or_false] at hf
  rcases hf with hf | hf | hf | hf | hf
  · cases e with
    | none => simp [stringFragment] at hf
    | some v => exact ⟨"email", by simp, v, by simpa [stringFragment] using hf⟩
  · cases u with
    | none => simp [stringFragment] at hf
    | some v => exact ⟨"username", by simp, v, by simpa [stringFragment] using hf⟩
  · cases fn with
    | none => simp [stringFragment] at hf
    | some v => exact ⟨"first_name", by simp, v, by simpa [stringFragment] using hf⟩
  · cases l with
    | none => simp [stringFragment] at hf
    | some v => exact ⟨"last_name", by simp, v, by simpa [stringFragment] using hf⟩
  · cases o with
    | none => simp [stringFragment] at hf
    | some v => exact ⟨"other_info", by simp, v, by simpa [stringFragment] using hf⟩

/-- No SET fragment is a fragment for the column `id`. -/
theorem setFragments_not_id (P : UserPtrs) (f : String) (hf : f ∈ setFragments P) :
    ¬ IsColumnFragment ["id"] f := by
  obtain ⟨c, hc, v, hv⟩ := setFragments_form P f hf
  rintro ⟨c2, hc2, w, hw⟩
  simp only [List.mem_singleton] at hc2
  subst hc2
  rw [hv] at hw
  have h2 := congrArg (fun s => s.data.head?) hw
  simp only [List.mem_cons, List.mem_singleton, List.not_mem_nil, or_false] at hc
  rcases hc with rfl | rfl | rfl | rfl | rfl <;> simp [String.data_append] at h2

/-- What `EditUser` does when no settable field is present: nothing. -/
theorem EditUser_noop (dbc : DBClient) (F P : UserPtrs) (h : setFragments P = []) :
    dbc.EditUser F P = ((none, P), dbc) := by
  unfold DBClient.EditUser
  simp [partsFromUserPtrs_clearId, h]

/-- What `EditUsers` does when no settable field is present: nothing. -/
theorem EditUsers_noop (dbc : DBClient) (F P : UserPtrs) (h : setFragments P = []) :
    dbc.EditUsers F P = ((none, P), dbc) := by
  unfold DBClient.EditUsers
  simp [partsFromUserPtrs_clearId, h]

/-- The statements `EditUser` leaves in the log when a settable field is present. -/
theorem EditUser_log (dbc : DBClient) (F P : UserPtrs) (h : setFragments P ≠ []) :
    (dbc.EditUser F P).2.DB.log = dbc.DB.log ++ [⟨updateOneText F P, []⟩] := by
  unfold DBClient.EditUser
  simp only [partsFromUserPtrs_clearId, List.length_eq_zero, h, if_false, SqlDB.Exec]
  cases dbc.DB.exec dbc.DB.log
      ⟨"UPDATE users SET " ++ Join (setFragments P) "," ++ whereClauseFromUserPtrs F
        ++ " LIMIT 1", []⟩ <;> rfl

/-- The statements `EditUsers` leaves in the log when a settable field is present. -/
theorem EditUsers_log (dbc : DBClient) (F P : UserPtrs) (h : setFragments P ≠ []) :
    (dbc.EditUsers F P).2.DB.log = dbc.DB.log ++ [⟨updateAllText F P, []⟩] := by
  unfold DBClient.EditUsers
  simp only [partsFromUserPtrs_clearId, List.length_eq_zero, h, if_false, SqlDB.Exec]
  cases dbc.DB.exec dbc.DB.log
      ⟨"UPDATE users SET " ++ Join (setFragments P) "," ++ whereClauseFromUserPtrs F, []⟩ <;>
    rfl

/-- The error and the client after `EditUser` do not depend on the patch's `Id`. -/
theorem EditUser_congr (dbc : DBClient) (F P Q : UserPtrs) (h : SameButId P Q) :
    (dbc.EditUser F P).1.1 = (dbc.EditUser F Q).1.1
    ∧ (dbc.EditUser F P).2 = (dbc.EditUser F Q).2 := by
  have hs := setFragments_congr P Q h
  unfold DBClient.EditUser
  simp only [partsFromUserPtrs_clearId, hs]
  split
  · exact ⟨rfl, rfl⟩
  · simp only [SqlDB.Exec]
    split <;> exact ⟨rfl, rfl⟩

/-- The error and the client after `EditUsers` do not depend on the patch's `Id`. -/
theorem EditUsers_congr (dbc : DBClient) (F P Q : UserPtrs) (h : SameButId P Q) :
    (dbc.EditUsers F P).1.1 = (dbc.EditUsers F Q).1.1
    ∧ (dbc.EditUsers F P).2 = (dbc.EditUsers F Q).2 := by
  have hs := setFragments_congr P Q h
  unfold DBClient.EditUsers
  simp only [partsFromUserPtrs_clearId, hs]
  split
  · exact ⟨rfl, rfl⟩
  · simp only [SqlDB.Exec]
    split <;> exact ⟨rfl, rfl⟩

/-- C2: identity is never settable through an update patch. For two patches that
differ only in `Id`, the fragments built with `Id` cleared and the SET text are the
same, the SET text is those fragments joined by `,`, `EditUser` and `EditUsers`
return the same error and leave the same client, the statement they issue carries
that SET text, and none of the fragments is a fragment for the column `id`. -/
theorem EditUser_id_not_settable (dbc : DBClient) (F P Q : UserPtrs) (h : SameButId P Q) :
    partsFromUserPtrs { P with Id := none } = partsFromUserPtrs { Q with Id := none }
    ∧ BuildSetClause P = Join (partsFromUserPtrs { P with Id := none }) ","
    ∧ BuildSetClause P = BuildSetClause Q
    ∧ (dbc.EditUser F P).1.1 = (dbc.EditUser F Q).1.1
    ∧ (dbc.EditUser F P).2 = (dbc.EditUser F Q).2
    ∧ (dbc.EditUsers F P).1.1 = (dbc.EditUsers F Q).1.1
    ∧ (dbc.EditUsers F P).2 = (dbc.EditUsers F Q).2
    ∧ (partsFromUserPtrs { P with Id := none } ≠ [] →
        (dbc.EditUser F P).2.DB.log = dbc.DB.log ++
          [⟨"UPDATE users SET " ++ Join (partsFromUserPtrs { P with Id := none }) ","
            ++ whereClauseFromUserPtrs F ++ " LIMIT 1", []⟩]
        ∧ (dbc.EditUsers F P).2.DB.log = dbc.DB.log ++
          [⟨"UPDATE users SET " ++ Join (partsFromUserPtrs { P with Id := none }) ","
            ++ whereClauseFromUserPtrs F, []⟩])
    ∧ ∀ f ∈ partsFromUserPtrs { P with Id := none }, ¬ IsColumnFragment ["id"] f := by
  have hs := setFragments_congr P Q h
  refine ⟨?_, ?_, ?_, (EditUser_congr dbc F P Q h).1, (EditUser_congr dbc F P Q h).2,
    (EditUsers_congr dbc F P Q h).1, (EditUsers_congr dbc F P Q h).2, ?_, ?_⟩
  · rw [partsFromUserPtrs_clearId, partsFromUserPtrs_clearId, hs]
  · rw [partsFromUserPtrs_clearId]; rfl
  · simp [BuildSetClause, hs]
  · rw [partsFromUserPtrs_clearId]
    intro hne
    exact ⟨EditUser_log dbc F P hne, EditUsers_log dbc F P hne⟩
  · rw [partsFromUserPtrs_clearId]
    exact setFragments_not_id P

/-- Witness of C2: a patch with `Id` 9 and the same patch without `Id`. -/
theorem EditUser_id_not_settable_witness :
    SameButId { Id := some 9, Email := some "a" } { Email := some "a" }
    ∧ BuildSetClause { Id := some 9, Email := some "a" } = BuildSetClause { Email := some "a" }
    ∧ (DBClient.EditUser ⟨sampleDB⟩ {} { Id := some 9, Email := some "a" }).2
        = (DBClient.EditUser ⟨sampleDB⟩ {} { Email := some "a" }).2 :=
  ⟨⟨rfl, rfl, rfl, rfl, rfl⟩,
   (EditUser_id_not_settable ⟨sampleDB⟩ {} { Id := some 9, Email := some "a" }
      { Email := some "a" } ⟨rfl, rfl, rfl, rfl, rfl⟩).2.2.1,
   (EditUser_id_not_settable ⟨sampleDB⟩ {} { Id := some 9, Email := some "a" }
      { Email := some "a" } ⟨rfl, rfl, rfl, rfl, rfl⟩).2.2.2.2.1⟩

/-- C5: a patch with none of email, username, first_name, last_name, other_info
present makes `EditUser` and `EditUsers` return nil and leave the client as it was
(no statement issued, the backend not consulted); with one of them present, exactly
one statement is appended to the log, with the text `UPDATE users SET ` + the SET
fragments joined by `,` + the WHERE clause of the filter (+ ` LIMIT 1` for
`EditUser`). -/
theorem EditUser_statements (dbc : DBClient) (F P : UserPtrs) :
    (NoSettableField P →
      dbc.EditUser F P = ((none, P), dbc) ∧ dbc.EditUsers F P = ((none, P), dbc))
    ∧ (¬ NoSettableField P →
      (dbc.EditUser F P).2.DB.log = dbc.DB.log ++
        [⟨"UPDATE users SET " ++ Join (setFragments P) "," ++ whereClauseFromUserPtrs F
          ++ " LIMIT 1", []⟩]
      ∧ (dbc.EditUsers F P).2.DB.log = dbc.DB.log ++
        [⟨"UPDATE users SET " ++ Join (setFragments P) "," ++ whereClauseFromUserPtrs F,
          []⟩]) := by
  constructor
  · intro h
    have hs := (setFragments_eq_nil_iff P).2 h
    exact ⟨EditUser_noop dbc F P hs, EditUsers_noop dbc F P hs⟩
  · intro h
    have hs : setFragments P ≠ [] := fun hn => h ((setFragments_eq_nil_iff P).1 hn)
    exact ⟨EditUser_log dbc F P hs, EditUsers_log dbc F P hs⟩

/-- Witness of C5: a patch holding only an `Id`, and a patch with two fields. -/
theorem EditUser_statements_witness :
    DBClient.EditUser ⟨sampleDB⟩ { Id := some 3 } { Id := some 9 }
      = ((none, { Id := some 9 }), ⟨sampleDB⟩)
    ∧ (DBClient.EditUser ⟨sampleDB⟩ { Id := some 3 }
        { Id := some 9, Email := some "a", LastName := some "b" }).2.DB.log
      = [⟨"UPDATE users SET email=a,last_name=b WHERE id=3 LIMIT 1", []⟩]
    ∧ (DBClient.EditUsers ⟨sampleDB⟩ { Id := some 3 }
        { Id := some 9, Email := some "a", LastName := some "b" }).2.DB.log
      = [⟨"UPDATE users SET email=a,last_name=b WHERE id=3", []⟩] :=
  ⟨((EditUser_statements ⟨sampleDB⟩ { Id := some 3 } { Id := some 9 }).1
      ⟨rfl, rfl, rfl, rfl, rfl⟩).1,
   ((EditUser_statements ⟨sampleDB⟩ { Id := some 3 }
      { Id := some 9, Email := some "a", LastName := some "b" }).2
      (fun hn => by simp [NoSettableField] at hn)).1.trans (by decide),
   ((EditUser_statements ⟨sampleDB⟩ { Id := some 3 }
      { Id := some 9, Email := some "a", LastName := some "b" }).2
      (fun hn => by simp [NoSettableField] at hn)).2.trans (by decide)⟩

/-! ## Theorems: reading rows -/

/-- A row that does not have exactly seven columns is refused by the scan into the
seven destinations of `GetUser` and `GetUsers`, and nothing is assigned. -/
theorem RowsScan_userDests_length (cols : List Column) (u : User)
    (h : cols.length ≠ 7) :
    RowsScan cols userDests u =
      (u, some (GoError.other ("sql: expected " ++ toString cols.length
        ++ " destination arguments in Scan, not " ++ toString 7))) := by
  have hl : userDests.length = 7 := rfl
  unfold RowsScan
  rw [hl, if_pos (Ne.symm h)]

/-- The state of the loop of `GetUsers` after any rows: the users decoded so far, in
row order, and the first decode error met. -/
theorem getUsersStep_fold_decoded (rows : List (List Column)) (users : List User)
    (retErr : Option GoError) :
    (rows.foldl getUsersStep (users, retErr)).1 =
      users ++ rows.filterMap (fun cols =>
        match RowsScan cols userDests {} with
        | (u, none) => some u
        | (_, some _) => none) := by
  induction rows generalizing users retErr with
  | nil => simp
  | cons cols rest ih =>
    rw [List.foldl_cons, List.filterMap_cons]
    rcases hsc : RowsScan cols userDests ({} : User) with ⟨u, e⟩
    cases e with
    | none =>
      have hstep : getUsersStep (users, retErr) cols = (users ++ [u], retErr) := by
        simp [getUsersStep, hsc]
      rw [hstep, ih]
      simp
    | some e =>
      have hstep : ∃ r, getUsersStep (users, retErr) cols = (users, r) := by
        cases retErr <;> simp [getUsersStep, hsc]
      obtain ⟨r, hr⟩ := hstep
      rw [hr, ih]

/-- Whatever the rows are, `GetUsers` returns a nil error once the query itself has
succeeded. -/
theorem GetUsers_error_nil (dbc : DBClient) (F : UserPtrs) (rows : List (List Column))
    (h : dbc.DB.query dbc.DB.log ⟨selectStmt ++ whereClauseFromUserPtrs F, []⟩
      = Except.ok rows) :
    (dbc.GetUsers F).1.2 = none
    ∧ (dbc.GetUsers F).1.1 = rows.filterMap (fun cols =>
        match RowsScan cols userDests {} with
        | (u, none) => some u
        | (_, some _) => none) := by
  have hf := getUsersStep_fold_decoded rows [] none
  refine ⟨?_, ?_⟩
  · simp [DBClient.GetUsers, SqlDB.Query, h]
  · simpa [DBClient.GetUsers, SqlDB.Query, h] using hf

/-- C4, on the sample backend: the one row of the result fails to decode, the loop
remembers that error in `retErr`, and `GetUsers` returns no user together with a
nil error. -/
theorem GetUsers_drops_first_error :
    (RowsScan sampleRow userDests ({} : User)).2
      = some (GoError.other "sql: expected 6 destination arguments in Scan, not 7")
    ∧ [sampleRow].foldl getUsersStep ([], none)
      = ([], some (GoError.other "sql: expected 6 destination arguments in Scan, not 7"))
    ∧ (DBClient.GetUsers ⟨sampleDB⟩ {}).1 = ([], none) := by
  refine ⟨by decide, by decide, by decide⟩

/-! ## Theorems: single-result lookups -/

/-- A query that matched no row and met no error scans to `sql.ErrNoRows`. -/
theorem Row_Scan_no_rows {σ : Type} (r : Row) (dests : List (Dest σ)) (s : σ)
    (h1 : r.err = none) (h2 : r.rows = []) (h3 : r.rowsErr = none) :
    r.Scan dests s = (s, some GoError.ErrNoRows) := by
  simp [Row.Scan, h1, h2, h3]

theorem GetUser_of_scan (dbc : DBClient) (F : UserPtrs) :
    (dbc.GetUser F).1 =
      match (dbc.userScan F).2 with
      | some err =>
        if errorsIs err GoError.ErrNoRows then (none, some GoError.ErrNoUser)
        else (none, some err)
      | none => (some (dbc.userScan F).1, none) := by
  unfold DBClient.GetUser DBClient.userScan
  simp only
  rcases (dbc.DB.QueryRow (selectStmt ++ whereClauseFromUserPtrs F)).1.Scan userDests
    ({} : User) with ⟨u, e⟩
  cases e with
  | none => rfl
  | some e => by_cases he : errorsIs e GoError.ErrNoRows = true <;> simp [he]

theorem CheckPassword_of_scan (dbc : DBClient) (bcrypt : Bcrypt) (F : UserPtrs)
    (pwd : String) :
    (dbc.CheckPassword bcrypt F pwd).1 =
      match (dbc.hashScan F).2 with
      | some err =>
        if errorsIs err GoError.ErrNoRows then (false, some GoError.ErrNoUser)
        else (false, some err)
      | none => CheckPassword bcrypt pwd (dbc.hashScan F).1 := by
  unfold DBClient.CheckPassword DBClient.hashScan
  simp only
  rcases (dbc.DB.QueryRow ("SELECT password_hash FROM users"
    ++ whereClauseFromUserPtrs F)).1.Scan [Dest.string (fun _ v => v)] "" with ⟨u, e⟩
  cases e with
  | none => rfl
  | some e => by_cases he : errorsIs e GoError.ErrNoRows = true <;> simp [he]

/-- C6: over every outcome of the row scan. If the scan error is `sql.ErrNoRows`
(in the sense of `errors.Is`), `GetUser` returns a nil user with `ErrNoUser` and
`DBClient.CheckPassword` returns false with `ErrNoUser`; any other scan error is
returned unchanged; for a scan error that is not this package's own `ErrNoUser`
value, `ErrNoUser` is returned exactly when the scan error is `sql.ErrNoRows`; a
query that matched zero rows is reported as `ErrNoUser`; and when the scan succeeds
`DBClient.CheckPassword` returns the result of `CheckPassword(candidate, stored)`. -/
theorem single_lookup_error_mapping (dbc : DBClient) (bcrypt : Bcrypt) (F : UserPtrs)
    (pwd : String) :
    (∀ e, (dbc.userScan F).2 = some e → errorsIs e GoError.ErrNoRows = true →
        (dbc.GetUser F).1 = (none, some GoError.ErrNoUser))
    ∧ (∀ e, (dbc.userScan F).2 = some e → errorsIs e GoError.ErrNoRows = false →
        (dbc.GetUser F).1 = (none, some e))
    ∧ (∀ e, (dbc.userScan F).2 = some e → e ≠ GoError.ErrNoUser →
        ((dbc.GetUser F).1.2 = some GoError.ErrNoUser ↔ errorsIs e GoError.ErrNoRows = true))
    ∧ ((dbc.userScan F).2 = none → (dbc.GetUser F).1 = (some (dbc.userScan F).1, none))
    ∧ (∀ e, (dbc.hashScan F).2 = some e → errorsIs e GoError.ErrNoRows = true →
        (dbc.CheckPassword bcrypt F pwd).1 = (false, some GoError.ErrNoUser))
    ∧ (∀ e, (dbc.hashScan F).2 = some e → errorsIs e GoError.ErrNoRows = false →
        (dbc.CheckPassword bcrypt F pwd).1 = (false, some e))
    ∧ (∀ e, (dbc.hashScan F).2 = some e → e ≠ GoError.ErrNoUser →
        ((dbc.CheckPassword bcrypt F pwd).1.2 = some GoError.ErrNoUser
          ↔ errorsIs e GoError.ErrNoRows = true))
    ∧ ((dbc.hashScan F).2 = none →
        (dbc.CheckPassword bcrypt F pwd).1 = CheckPassword bcrypt pwd (dbc.hashScan F).1)
    ∧ (∀ r : Row, r.err = none → r.rows = [] → r.rowsErr = none →
        (dbc.DB.QueryRow (selectStmt ++ whereClauseFromUserPtrs F)).1 = r →
        (dbc.GetUser F).1 = (none, some GoError.ErrNoUser))
    ∧ (∀ r : Row, r.err = none → r.rows = [] → r.rowsErr = none →
        (dbc.DB.QueryRow ("SELECT password_hash FROM users" ++ whereClauseFromUserPtrs F)).1
          = r →
        (dbc.CheckPassword bcrypt F pwd).1 = (false, some GoError.ErrNoUser)) := by
  have hU := GetUser_of_scan dbc F
  have hP := CheckPassword_of_scan dbc bcrypt F pwd
  refine ⟨?_, ?_, ?_, ?_, ?_, ?_, ?_, ?_, ?_, ?_⟩
  · intro e he hi
    rw [hU, he]; simp [hi]
  · intro e he hi
    rw [hU, he]; simp [hi]
  · intro e he hne
    rw [hU, he]
    by_cases hi : errorsIs e GoError.ErrNoRows = true
    · simp [hi]
    · simp [hi, hne]
  · intro he
    rw [hU, he]
  · intro e he hi
    rw [hP, he]; simp [hi]
  · intro e he hi
    rw [hP, he]; simp [hi]
  · intro e he hne
    rw [hP, he]
    by_cases hi : errorsIs e GoError.ErrNoRows = true
    · simp [hi]
    · simp [hi, hne]
  · intro he
    rw [hP, he]
  · intro r h1 h2 h3 hr
    have hs : dbc.userScan F = (({} : User), some GoError.ErrNoRows) := by
      unfold DBClient.userScan
      rw [hr]
      exact Row_Scan_no_rows r userDests {} h1 h2 h3
    rw [hU, hs]
    simp [errorsIs]
  · intro r h1 h2 h3 hr
    have hs : dbc.hashScan F = ("", some GoError.ErrNoRows) := by
      unfold DBClient.hashScan
      rw [hr]
      exact Row_Scan_no_rows r _ "" h1 h2 h3
    rw [hP, hs]
    simp [errorsIs]

/-- Witness of C6: a backend that finds no row, a backend whose row does not fit
the destinations, and a backend that delivers the stored hash. -/
theorem single_lookup_error_mapping_witness :
    (DBClient.GetUser ⟨failingDB⟩ { Id := some 4 }).1 = (none, some GoError.ErrNoUser)
    ∧ (DBClient.CheckPassword ⟨failingDB⟩ sampleBcrypt { Id := some 4 } "secret").1
        = (false, some GoError.ErrNoUser)
    ∧ (DBClient.CheckPassword ⟨sampleDB⟩ sampleBcrypt { Id := some 4 } "secret").1
        = (false, some (GoError.other
            "sql: expected 6 destination arguments in Scan, not 1"))
    ∧ (DBClient.CheckPassword ⟨hashDB⟩ sampleBcrypt { Id := some 4 } "secret").1
        = (true, none) :=
  ⟨(single_lookup_error_mapping ⟨failingDB⟩ sampleBcrypt { Id := some 4 } "secret").1
      GoError.ErrNoRows (by decide) (by decide),
   (single_lookup_error_mapping ⟨failingDB⟩ sampleBcrypt { Id := some 4 } "secret").2.2.2.2.1
      GoError.ErrNoRows (by decide) (by decide),
   (single_lookup_error_mapping ⟨sampleDB⟩ sampleBcrypt { Id := some 4 }
      "secret").2.2.2.2.2.1
      (GoError.other "sql: expected 6 destination arguments in Scan, not 1")
      (by decide) (by decide),
   ((single_lookup_error_mapping ⟨hashDB⟩ sampleBcrypt { Id := some 4 }
      "secret").2.2.2.2.2.2.2.1 (by decide)).trans (by decide)⟩

/-! ## Theorems: `CheckPassword` -/

/-- C7: with the comparison of `bcrypt` any function, `CheckPassword` returns
`(true, nil)` iff the comparison reports no error, `(false, nil)` when the
comparison error is the mismatch error or the password-too-long error, and
`(false, err)` with the comparison error unchanged in every other case; it never
returns true together with an error. -/
theorem CheckPassword_spec (bcrypt : Bcrypt) (pwd hash : String) :
    (CheckPassword bcrypt pwd hash = (true, none)
      ↔ bcrypt.CompareHashAndPassword hash pwd = none)
    ∧ (∀ e, bcrypt.CompareHashAndPassword hash pwd = some e →
        (errorsIs e GoError.ErrMismatchedHashAndPassword = true
          ∨ errorsIs e GoError.ErrPasswordTooLong = true) →
        CheckPassword bcrypt pwd hash = (false, none))
    ∧ (∀ e, bcrypt.CompareHashAndPassword hash pwd = some e →
        errorsIs e GoError.ErrMismatchedHashAndPassword = false →
        errorsIs e GoError.ErrPasswordTooLong = false →
        CheckPassword bcrypt pwd hash = (false, some e))
    ∧ ¬ ((CheckPassword bcrypt pwd hash).1 = true
        ∧ (CheckPassword bcrypt pwd hash).2 ≠ none) := by
  unfold CheckPassword
  cases hc : bcrypt.CompareHashAndPassword hash pwd with
  | none => simp
  | some e =>
    by_cases h1 : errorsIs e GoError.ErrMismatchedHashAndPassword = true
    · simp [h1]
    · by_cases h2 : errorsIs e GoError.ErrPasswordTooLong = true
      · simp [h2]
      · simp [h1, h2]

/-- Witness of C7: a wrong password is reported as `(false, nil)`, the right one as
`(true, nil)`. -/
theorem CheckPassword_spec_witness :
    CheckPassword sampleBcrypt "wrong" "right" = (false, none)
    ∧ CheckPassword sampleBcrypt "right" "right" = (true, none) :=
  ⟨(CheckPassword_spec sampleBcrypt "wrong" "right").2.1
      GoError.ErrMismatchedHashAndPassword (by decide) (Or.inl (by decide)),
   (CheckPassword_spec sampleBcrypt "right" "right").1.2 (by decide)⟩

/-! ## Theorems: `NewUser` and the round trip -/

/-- C9: over every outcome of the INSERT. If it succeeds and the backend reports the
new row id, `NewUser` returns nil, sets `user.Id` to that id and leaves the other
five fields as they were; if it fails, `NewUser` returns an `InsertError` holding
the backend error, whose `Error()` text is the text of the backend error, and the
user is unchanged; if reading the new id fails, that error is returned and the user
is unchanged. In each case exactly the INSERT is appended to the log. -/
theorem NewUser_outcomes (dbc : DBClient) (user : User) (pwdHash : String) :
    (∀ res id, dbc.insertOutcome user pwdHash = Except.ok res →
        res.LastInsertId = Except.ok id →
        (dbc.NewUser user pwdHash).1.1 = none
        ∧ (dbc.NewUser user pwdHash).1.2.Id = id
        ∧ (dbc.NewUser user pwdHash).1.2.Email = user.Email
        ∧ (dbc.NewUser user pwdHash).1.2.Username = user.Username
        ∧ (dbc.NewUser user pwdHash).1.2.FirstName = user.FirstName
        ∧ (dbc.NewUser user pwdHash).1.2.LastName = user.LastName
        ∧ (dbc.NewUser user pwdHash).1.2.OtherInfo = user.OtherInfo)
    ∧ (∀ err, dbc.insertOutcome user pwdHash = Except.error err →
        (dbc.NewUser user pwdHash).1 = (some (GoError.InsertError err), user)
        ∧ (GoError.InsertError err).Error = err.Error)
    ∧ (∀ res err, dbc.insertOutcome user pwdHash = Except.ok res →
        res.LastInsertId = Except.error err →
        (dbc.NewUser user pwdHash).1 = (some err, user))
    ∧ (dbc.NewUser user pwdHash).2.DB.log
        = dbc.DB.log ++ [⟨insertStmt, insertArgs user pwdHash⟩] := by
  unfold DBClient.insertOutcome
  refine ⟨?_, ?_, ?_, ?_⟩
  · intro res id h1 h2
    simp [DBClient.NewUser, SqlDB.Exec, h1, h2]
  · intro err h1
    simp [DBClient.NewUser, SqlDB.Exec, h1, GoError.Error]
  · intro res err h1 h2
    simp [DBClient.NewUser, SqlDB.Exec, h1, h2]
  · simp only [DBClient.NewUser, SqlDB.Exec]
    cases dbc.DB.exec dbc.DB.log ⟨insertStmt, insertArgs user pwdHash⟩ with
    | error e => rfl
    | ok res =>
      cases hres : res.LastInsertId with
      | error e => simp [hres]
      | ok id => simp [hres]

/-- Witness of C9: an insert that succeeds with id 1, an insert that fails, and an
insert whose new id cannot be read. -/
theorem NewUser_outcomes_witness :
    ((DBClient.NewUser ⟨sampleDB⟩ sampleUser "h").1.1 = none
      ∧ (DBClient.NewUser ⟨sampleDB⟩ sampleUser "h").1.2.Id = 1)
    ∧ (DBClient.NewUser ⟨failingDB⟩ sampleUser "h").1
        = (some (GoError.InsertError (GoError.other "disk I/O error")), sampleUser)
    ∧ (DBClient.NewUser ⟨hashDB⟩ sampleUser "h").1
        = (some (GoError.other "no id"), sampleUser) :=
  ⟨⟨((NewUser_outcomes ⟨sampleDB⟩ sampleUser "h").1 ⟨Except.ok 1⟩ 1 rfl rfl).1,
    ((NewUser_outcomes ⟨sampleDB⟩ sampleUser "h").1 ⟨Except.ok 1⟩ 1 rfl rfl).2.1⟩,
   ((NewUser_outcomes ⟨failingDB⟩ sampleUser "h").2.1 (GoError.other "disk I/O error")
      rfl).1,
   (NewUser_outcomes ⟨hashDB⟩ sampleUser "h").2.2.1
      ⟨Except.error (GoError.other "no id")⟩ (GoError.other "no id") rfl rfl⟩

/-- Whenever the matched row has a number of columns other than seven, in
particular the six selected ones, `GetUser` returns a nil user and the error of the
scan. -/
theorem GetUser_column_count (dbc : DBClient) (F : UserPtrs) (r : Row)
    (cols : List Column) (rest : List (List Column))
    (hr : (dbc.DB.QueryRow (selectStmt ++ whereClauseFromUserPtrs F)).1 = r)
    (h1 : r.err = none) (h2 : r.rows = cols :: rest) (h3 : cols.length ≠ 7) :
    (dbc.GetUser F).1 = (none, some (GoError.other ("sql: expected "
      ++ toString cols.length ++ " destination arguments in Scan, not " ++ toString 7))) := by
  have hs : dbc.userScan F = (({} : User), some (GoError.other ("sql: expected "
      ++ toString cols.length ++ " destination arguments in Scan, not " ++ toString 7))) := by
    unfold DBClient.userScan
    rw [hr]
    simp [Row.Scan, h1, h2, RowsScan_userDests_length cols {} h3]
  rw [GetUser_of_scan, hs]
  simp [errorsIs]

/-- When the matched row does have seven columns of fitting kinds, the third column
overwrites the second in `Email` and every later field receives the column one place
further than the one selected for it. -/
theorem userScan_seven_columns (id : Int) (c1 c2 c3 c4 c5 c6 : String)
    (n0 n1 n2 n3 n4 n5 n6 : String) :
    RowsScan [⟨n0, SqlValue.int id⟩, ⟨n1, SqlValue.text c1⟩, ⟨n2, SqlValue.text c2⟩,
        ⟨n3, SqlValue.text c3⟩, ⟨n4, SqlValue.text c4⟩, ⟨n5, SqlValue.text c5⟩,
        ⟨n6, SqlValue.text c6⟩] userDests ({} : User)
      = ({ Id := id, Email := c2, Username := c3, FirstName := c4, LastName := c5,
           OtherInfo := c6 }, none) := by
  simp [RowsScan, userDests, scanColumns, convertAssign]

/-- A row of seven columns whose first value is not a number: the scan stops at
column 0 with the error of `database/sql`, which wraps the failed conversion. -/
theorem userScan_conversion_error :
    (RowsScan [⟨"id", SqlValue.text "x"⟩, ⟨"email", SqlValue.text "a"⟩,
        ⟨"email", SqlValue.text "a"⟩, ⟨"username", SqlValue.text "b"⟩,
        ⟨"firstname", SqlValue.text "c"⟩, ⟨"lastname", SqlValue.text "d"⟩,
        ⟨"other_info", SqlValue.text "e"⟩] userDests ({} : User)).2
      = some (GoError.wrap
          "sql: Scan error on column index 0, name \"id\": converting driver.Value type string (\"x\") to a int64: invalid syntax"
          (GoError.other
            "converting driver.Value type string (\"x\") to a int64: invalid syntax")) := by
  decide

/-- C8, on the sample backend: `NewUser` succeeds and assigns id 1, the backend
answers the lookup by `{id: 1}` with the six selected columns of that user, and
`GetUser` returns a nil user and an error instead of the user. -/
theorem NewUser_GetUser_roundtrip_fails :
    (DBClient.NewUser ⟨sampleDB⟩ sampleUser "h").1 = (none, { sampleUser with Id := 1 })
    ∧ ((DBClient.NewUser ⟨sampleDB⟩ sampleUser "h").2.DB.queryRow
        (DBClient.NewUser ⟨sampleDB⟩ sampleUser "h").2.DB.log
        ⟨selectStmt ++ whereClauseFromUserPtrs { Id := some 1 }, []⟩).rows = [sampleRow]
    ∧ ((DBClient.NewUser ⟨sampleDB⟩ sampleUser "h").2.GetUser { Id := some 1 }).1
      = (none, some (GoError.other "sql: expected 6 destination arguments in Scan, not 7")) := by
  refine ⟨by decide, rfl, by decide⟩

/-! ## Theorems: the columns of the fragments -/

set_option maxRecDepth 100000 in
/-- The columns `createTableStmt` declares. -/
theorem usersColumns_eq :
    usersColumns =
      ["id", "email", "username", "password_hash", "firstname", "lastname", "other_info"] := by
  rfl

/-- A fragment over a set of columns starts with one of the columns and `=`. -/
theorem IsColumnFragment_starts (columns : List String) (f : String)
    (h : IsColumnFragment columns f) : ∃ c ∈ columns, (c ++ "=").data <+: f.data := by
  obtain ⟨c, hc, v, hv⟩ := h
  refine ⟨c, hc, ?_⟩
  rw [hv, String.data_append]
  exact List.prefix_append _ _

/-- Every fragment is `<column>=<value>` for one of the six column names the source
writes in `partsFromUserPtrs`. -/
theorem partsFromUserPtrs_columns (F : UserPtrs) (f : String)
    (hf : f ∈ partsFromUserPtrs F) :
    IsColumnFragment ["id", "email", "username", "first_name", "last_name", "other_info"]
      f := by
  rw [partsFromUserPtrs_eq_BuildComparisons] at hf
  have hsplit : f ∈ (idFragment F.Id).toList ∨ f ∈ setFragments F := by
    unfold BuildComparisons at hf
    unfold setFragments
    cases hid : idFragment F.Id with
    | none => right; simpa [hid, reduceOption_cons_none] using hf
    | some s =>
      rw [hid, reduceOption_cons_some, List.mem_cons] at hf
      rcases hf with hf | hf
      · left; simp [hf]
      · right; exact hf
  rcases hsplit with h | h
  · cases hid : F.Id with
    | none => simp [idFragment, hid] at h
    | some v =>
      by_cases hv : 0 < v
      · refine ⟨"id", by simp, formatD v, ?_⟩
        simpa [idFragment, hid, hv] using h
      · simp [idFragment, hid, hv] at h
  · obtain ⟨c, hc, v, hv⟩ := setFragments_form F f h
    refine ⟨c, ?_, v, hv⟩
    simp only [List.mem_cons, List.mem_singleton, List.not_mem_nil, or_false] at hc ⊢
    tauto

set_option maxRecDepth 100000 in
/-- C10, on the filters `{first_name: "Bob"}` and `{last_name: "B"}`: the fragments
built are `first_name=Bob` and `last_name=B`, and neither is `c=v` for a column `c`
the schema of `createTableStmt` declares (it declares `firstname` and `lastname`). -/
theorem first_name_fragment_not_a_column :
    partsFromUserPtrs { FirstName := some "Bob" } = ["first_name=Bob"]
    ∧ ¬ IsColumnFragment usersColumns "first_name=Bob"
    ∧ partsFromUserPtrs { LastName := some "B" } = ["last_name=B"]
    ∧ ¬ IsColumnFragment usersColumns "last_name=B"
    ∧ "firstname" ∈ usersColumns ∧ "lastname" ∈ usersColumns
    ∧ "first_name" ∉ usersColumns ∧ "last_name" ∉ usersColumns := by
  rw [usersColumns_eq]
  refine ⟨by decide, ?_, by decide, ?_, by decide, by decide, by decide, by decide⟩
  · intro h
    obtain ⟨c, hc, hp⟩ := IsColumnFragment_starts _ _ h
    have hall : ∀ c ∈ ["id", "email", "username", "password_hash", "firstname", "lastname",
        "other_info"], ¬ ((c ++ "=").data <+: "first_name=Bob".data) := by decide
    exact hall c hc hp
  · intro h
    obtain ⟨c, hc, hp⟩ := IsColumnFragment_starts _ _ h
    have hall : ∀ c ∈ ["id", "email", "username", "password_hash", "firstname", "lastname",
        "other_info"], ¬ ((c ++ "=").data <+: "last_name=B".data) := by decide
    exact hall c hc hp

/-! ## Theorems: presence of a field and its zero value -/

/-- The fragment list as the concatenation of the six optional fragments. -/
theorem partsFromUserPtrs_toList (F : UserPtrs) :
    partsFromUserPtrs F =
      (idFragment F.Id).toList ++ ((stringFragment "email" F.Email).toList
        ++ ((stringFragment "username" F.Username).toList
        ++ ((stringFragment "first_name" F.FirstName).toList
        ++ ((stringFragment "last_name" F.LastName).toList
        ++ (stringFragment "other_info" F.OtherInfo).toList)))) := by
  rw [partsFromUserPtrs_eq_BuildComparisons]
  unfold BuildComparisons
  cases idFragment F.Id <;> cases stringFragment "email" F.Email <;>
    cases stringFragment "username" F.Username <;>
    cases stringFragment "first_name" F.FirstName <;>
    cases stringFragment "last_name" F.LastName <;>
    cases stringFragment "other_info" F.OtherInfo <;>
    simp [reduceOption_cons_some, reduceOption_cons_none, List.reduceOption_nil]

/-- The length of the loop of `strings.Join`. -/
theorem Join_foldl_length (rest : List String) (sep e : String) :
    (rest.foldl (fun b s => b ++ sep ++ s) e).length =
      e.length + (rest.map String.length).sum + rest.length * sep.length := by
  induction rest generalizing e with
  | nil => simp
  | cons a rest ih =>
    rw [List.foldl_cons, ih]
    simp only [String.length_append, List.map_cons, List.sum_cons, List.length_cons]
    ring

/-- The length of a joined text: the lengths of the elements and one separator
between each two neighbours. -/
theorem Join_length (l : List String) (sep : String) :
    (Join l sep).length = (l.map String.length).sum + (l.length - 1) * sep.length := by
  cases l with
  | nil => simp [Join]
  | cons e rest =>
    show (rest.foldl (fun b s => b ++ sep ++ s) e).length = _
    rw [Join_foldl_length]
    simp only [List.map_cons, List.sum_cons, List.length_cons, Nat.add_sub_cancel]

/-- Inserting a nonempty element makes the joined text strictly longer. -/
theorem Join_length_insert (A B : List String) (x sep : String) (hx : 0 < x.length) :
    (Join (A ++ B) sep).length < (Join (A ++ x :: B) sep).length := by
  rw [Join_length, Join_length]
  simp only [List.map_append, List.sum_append, List.map_cons, List.sum_cons,
    List.length_append, List.length_cons]
  have h1 : (A.length + B.length - 1) * sep.length ≤ (A.length + (B.length + 1) - 1) * sep.length :=
    Nat.mul_le_mul_right _ (by omega)
  omega

/-- The length of the WHERE clause. -/
theorem whereClauseFromUserPtrs_length (F : UserPtrs) :
    (whereClauseFromUserPtrs F).length =
      if partsFromUserPtrs F = [] then 0
      else 7 + (Join (partsFromUserPtrs F) " AND ").length := by
  unfold whereClauseFromUserPtrs
  by_cases h : partsFromUserPtrs F = []
  · simp [h]
  · simp only [List.length_eq_zero, ne_eq, h, not_false_eq_true, if_true, if_false,
      String.length_append]
    rfl

/-- When the fragments of one filter are those of another with one nonempty
fragment inserted, the fragment lists differ and the WHERE clauses differ. -/
theorem ne_of_inserted_fragment (F G : UserPtrs) (A B : List String) (x : String)
    (hF : partsFromUserPtrs F = A ++ x :: B) (hG : partsFromUserPtrs G = A ++ B)
    (hx : 0 < x.length) :
    partsFromUserPtrs F ≠ partsFromUserPtrs G
    ∧ whereClauseFromUserPtrs F ≠ whereClauseFromUserPtrs G := by
  constructor
  · intro h
    have := congrArg List.length h
    rw [hF, hG] at this
    simp at this
  · intro h
    have hl := congrArg String.length h
    rw [whereClauseFromUserPtrs_length, whereClauseFromUserPtrs_length, hF, hG] at hl
    have hlt := Join_length_insert A B x " AND " hx
    have hne : A ++ x :: B ≠ [] := by simp
    rw [if_neg hne] at hl
    split at hl <;> omega

/-- With `Email` present and empty the fragment `email=` stands at the place of
the field, after the fragments of the fields before it and before those of the fields
after it; with `Email` absent nothing stands there. -/
theorem Email_empty_inserted (F : UserPtrs) :
    partsFromUserPtrs { F with Email := some "" }
      = ((idFragment F.Id).toList)
        ++ "email=" :: ((stringFragment "username" F.Username).toList ++ (stringFragment "first_name" F.FirstName).toList ++ (stringFragment "last_name" F.LastName).toList ++ (stringFragment "other_info" F.OtherInfo).toList)
    ∧ partsFromUserPtrs { F with Email := none }
      = ((idFragment F.Id).toList)
        ++ ((stringFragment "username" F.Username).toList ++ (stringFragment "first_name" F.FirstName).toList ++ (stringFragment "last_name" F.LastName).toList ++ (stringFragment "other_info" F.OtherInfo).toList) := by
  have he : stringFragment "email" (some "") = some "email=" := by decide
  constructor
  · rw [partsFromUserPtrs_toList]
    simp [he]
  · rw [partsFromUserPtrs_toList]
    simp [stringFragment]

/-- With `Username` present and empty the fragment `username=` stands at the place of
the field, after the fragments of the fields before it and before those of the fields
after it; with `Username` absent nothing stands there. -/
theorem Username_empty_inserted (F : UserPtrs) :
    partsFromUserPtrs { F with Username := some "" }
      = ((idFragment F.Id).toList ++ (stringFragment "email" F.Email).toList)
        ++ "username=" :: ((stringFragment "first_name" F.FirstName).toList ++ (stringFragment "last_name" F.LastName).toList ++ (stringFragment "other_info" F.OtherInfo).toList)
    ∧ partsFromUserPtrs { F with Username := none }
      = ((idFragment F.Id).toList ++ (stringFragment "email" F.Email).toList)
        ++ ((stringFragment "first_name" F.FirstName).toList ++ (stringFragment "last_name" F.LastName).toList ++ (stringFragment "other_info" F.OtherInfo).toList) := by
  have he : stringFragment "username" (some "") = some "username=" := by decide
  constructor
  · rw [partsFromUserPtrs_toList]
    simp [he]
  · rw [partsFromUserPtrs_toList]
    simp [stringFragment]

/-- With `FirstName` present and empty the fragment `first_name=` stands at the place of
the field, after the fragments of the fields before it and before those of the fields
after it; with `FirstName` absent nothing stands there. -/
theorem FirstName_empty_inserted (F : UserPtrs) :
    partsFromUserPtrs { F with FirstName := some "" }
      = ((idFragment F.Id).toList ++ (stringFragment "email" F.Email).toList ++ (stringFragment "username" F.Username).toList)
        ++ "first_name=" :: ((stringFragment "last_name" F.LastName).toList ++ (stringFragment "other_info" F.OtherInfo).toList)
    ∧ partsFromUserPtrs { F with FirstName := none }
      = ((idFragment F.Id).toList ++ (stringFragment "email" F.Email).toList ++ (stringFragment "username" F.Username).toList)
        ++ ((stringFragment "last_name" F.LastName).toList ++ (stringFragment "other_info" F.OtherInfo).toList) := by
  have he : stringFragment "first_name" (some "") = some "first_name=" := by decide
  constructor
  · rw [partsFromUserPtrs_toList]
    simp [he]
  · rw [partsFromUserPtrs_toList]
    simp [stringFragment]

/-- With `LastName` present and empty the fragment `last_name=` stands at the place of
the field, after the fragments of the fields before it and before those of the fields
after it; with `LastName` absent nothing stands there. -/
theorem LastName_empty_inserted (F : UserPtrs) :
    partsFromUserPtrs { F with LastName := some "" }
      = ((idFragment F.Id).toList ++ (stringFragment "email" F.Email).toList ++ (stringFragment "username" F.Username).toList ++ (stringFragment "first_name" F.FirstName).toList)
        ++ "last_name=" :: ((stringFragment "other_info" F.OtherInfo).toList)
    ∧ partsFromUserPtrs { F with LastName := none }
      = ((idFragment F.Id).toList ++ (stringFragment "email" F.Email).toList ++ (stringFragment "username" F.Username).toList ++ (stringFragment "first_name" F.FirstName).toList)
        ++ ((stringFragment "other_info" F.OtherInfo).toList) := by
  have he : stringFragment "last_name" (some "") = some "last_name=" := by decide
  constructor
  · rw [partsFromUserPtrs_toList]
    simp [he]
  · rw [partsFromUserPtrs_toList]
    simp [stringFragment]

/-- With `OtherInfo` present and empty the fragment `other_info=` stands at the place of
the field, after the fragments of the fields before it and before those of the fields
after it; with `OtherInfo` absent nothing stands there. -/
theorem OtherInfo_empty_inserted (F : UserPtrs) :
    partsFromUserPtrs { F with OtherInfo := some "" }
      = ((idFragment F.Id).toList ++ (stringFragment "email" F.Email).toList ++ (stringFragment "username" F.Username).toList ++ (stringFragment "first_name" F.FirstName).toList ++ (stringFragment "last_name" F.LastName).toList)
        ++ "other_info=" :: []
    ∧ partsFromUserPtrs { F with OtherInfo := none }
      = ((idFragment F.Id).toList ++ (stringFragment "email" F.Email).toList ++ (stringFragment "username" F.Username).toList ++ (stringFragment "first_name" F.FirstName).toList ++ (stringFragment "last_name" F.LastName).toList)
        ++ [] := by
  have he : stringFragment "other_info" (some "") = some "other_info=" := by decide
  constructor
  · rw [partsFromUserPtrs_toList]
    simp [he]
  · rw [partsFromUserPtrs_toList]
    simp [stringFragment]

/-- A present `Id` equal to zero contributes what an absent `Id` contributes:
nothing. -/
theorem Id_zero_as_absent (F : UserPtrs) :
    partsFromUserPtrs { F with Id := some 0 } = partsFromUserPtrs { F with Id := none }
    ∧ whereClauseFromUserPtrs { F with Id := some 0 }
      = whereClauseFromUserPtrs { F with Id := none } := by
  have h : partsFromUserPtrs { F with Id := some 0 }
      = partsFromUserPtrs { F with Id := none } := by
    rw [partsFromUserPtrs_toList, partsFromUserPtrs_toList]
    simp [idFragment]
  exact ⟨h, by simp [whereClauseFromUserPtrs, h]⟩

/-- C11, as stated, fails on the empty filter: with `Email` present and empty the
fragment list is `["email="]` and the WHERE clause is ` WHERE email=`, with `Email`
absent they are the empty list and the empty text; so the two are not the same for
every filter. -/
theorem empty_email_distinguished_example :
    partsFromUserPtrs { Email := some "" } = ["email="]
    ∧ partsFromUserPtrs { Email := none } = []
    ∧ whereClauseFromUserPtrs { Email := some "" } = " WHERE email="
    ∧ whereClauseFromUserPtrs { Email := none } = ""
    ∧ ¬ (∀ F : UserPtrs,
        partsFromUserPtrs { F with Email := some "" }
          = partsFromUserPtrs { F with Email := none }
        ∧ whereClauseFromUserPtrs { F with Email := some "" }
          = whereClauseFromUserPtrs { F with Email := none }) := by
  refine ⟨by decide, by decide, by decide, by decide, ?_⟩
  intro h
  have h1 := (h {}).1
  revert h1
  decide

/-- C11, amended: in `partsFromUserPtrs` and `whereClauseFromUserPtrs` a string
field that is present and empty is not an absent field. For every filter and each of
the five optional string fields, the fragments with the field present and empty are
the fragments of the fields before it, then `<column>=`, then the fragments of the
fields after it, while with the field absent they are the same without `<column>=`;
so the fragment lists differ and the WHERE clauses differ. The accessors give the
same text for a present empty field as for an absent one, and in these two functions
the zero value stands for absence for `Id` alone. -/
theorem empty_string_field_is_present (F : UserPtrs) :
    (partsFromUserPtrs { F with Email := some "" }
        = ((idFragment F.Id).toList)
          ++ "email=" :: ((stringFragment "username" F.Username).toList ++ (stringFragment "first_name" F.FirstName).toList ++ (stringFragment "last_name" F.LastName).toList ++ (stringFragment "other_info" F.OtherInfo).toList)
      ∧ partsFromUserPtrs { F with Email := none }
        = ((idFragment F.Id).toList)
          ++ ((stringFragment "username" F.Username).toList ++ (stringFragment "first_name" F.FirstName).toList ++ (stringFragment "last_name" F.LastName).toList ++ (stringFragment "other_info" F.OtherInfo).toList)
      ∧ partsFromUserPtrs { F with Email := some "" }
        ≠ partsFromUserPtrs { F with Email := none }
      ∧ whereClauseFromUserPtrs { F with Email := some "" }
        ≠ whereClauseFromUserPtrs { F with Email := none })
    ∧ (partsFromUserPtrs { F with Username := some "" }
        = ((idFragment F.Id).toList ++ (stringFragment "email" F.Email).toList)
          ++ "username=" :: ((stringFragment "first_name" F.FirstName).toList ++ (stringFragment "last_name" F.LastName).toList ++ (stringFragment "other_info" F.OtherInfo).toList)
      ∧ partsFromUserPtrs { F with Username := none }
        = ((idFragment F.Id).toList ++ (stringFragment "email" F.Email).toList)
          ++ ((stringFragment "first_name" F.FirstName).toList ++ (stringFragment "last_name" F.LastName).toList ++ (stringFragment "other_info" F.OtherInfo).toList)
      ∧ partsFromUserPtrs { F with Username := some "" }
        ≠ partsFromUserPtrs { F with Username := none }
      ∧ whereClauseFromUserPtrs { F with Username := some "" }
        ≠ whereClauseFromUserPtrs { F with Username := none })
    ∧ (partsFromUserPtrs { F with FirstName := some "" }
        = ((idFragment F.Id).toList ++ (stringFragment "email" F.Email).toList ++ (stringFragment "username" F.Username).toList)
          ++ "first_name=" :: ((stringFragment "last_name" F.LastName).toList ++ (stringFragment "other_info" F.OtherInfo).toList)
      ∧ partsFromUserPtrs { F with FirstName := none }
        = ((idFragment F.Id).toList ++ (stringFragment "email" F.Email).toList ++ (stringFragment "username" F.Username).toList)
          ++ ((stringFragment "last_name" F.LastName).toList ++ (stringFragment "other_info" F.OtherInfo).toList)
      ∧ partsFromUserPtrs { F with FirstName := some "" }
        ≠ partsFromUserPtrs { F with FirstName := none }
      ∧ whereClauseFromUserPtrs { F with FirstName := some "" }
        ≠ whereClauseFromUserPtrs { F with FirstName := none })
    ∧ (partsFromUserPtrs { F with LastName := some "" }
        = ((idFragment F.Id).toList ++ (stringFragment "email" F.Email).toList ++ (stringFragment "username" F.Username).toList ++ (stringFragment "first_name" F.FirstName).toList)
          ++ "last_name=" :: ((stringFragment "other_info" F.OtherInfo).toList)
      ∧ partsFromUserPtrs { F with LastName := none }
        = ((idFragment F.Id).toList ++ (stringFragment "email" F.Email).toList ++ (stringFragment "username" F.Username).toList ++ (stringFragment "first_name" F.FirstName).toList)
          ++ ((stringFragment "other_info" F.OtherInfo).toList)
      ∧ partsFromUserPtrs { F with LastName := some "" }
        ≠ partsFromUserPtrs { F with LastName := none }
      ∧ whereClauseFromUserPtrs { F with LastName := some "" }
        ≠ whereClauseFromUserPtrs { F with LastName := none })
    ∧ (partsFromUserPtrs { F with OtherInfo := some "" }
        = ((idFragment F.Id).toList ++ (stringFragment "email" F.Email).toList ++ (stringFragment "username" F.Username).toList ++ (stringFragment "first_name" F.FirstName).toList ++ (stringFragment "last_name" F.LastName).toList)
          ++ "other_info=" :: []
      ∧ partsFromUserPtrs { F with OtherInfo := none }
        = ((idFragment F.Id).toList ++ (stringFragment "email" F.Email).toList ++ (stringFragment "username" F.Username).toList ++ (stringFragment "first_name" F.FirstName).toList ++ (stringFragment "last_name" F.LastName).toList)
          ++ []
      ∧ partsFromUserPtrs { F with OtherInfo := some "" }
        ≠ partsFromUserPtrs { F with OtherInfo := none }
      ∧ whereClauseFromUserPtrs { F with OtherInfo := some "" }
        ≠ whereClauseFromUserPtrs { F with OtherInfo := none })
    ∧ (UserPtrs.GetEmail { F with Email := some "" } = UserPtrs.GetEmail { F with Email := none }
      ∧ UserPtrs.GetUsername { F with Username := some "" }
        = UserPtrs.GetUsername { F with Username := none }
      ∧ UserPtrs.GetFirstName { F with FirstName := some "" }
        = UserPtrs.GetFirstName { F with FirstName := none }
      ∧ UserPtrs.GetLastName { F with LastName := some "" }
        = UserPtrs.GetLastName { F with LastName := none }
      ∧ UserPtrs.GetOtherInfo { F with OtherInfo := some "" }
        = UserPtrs.GetOtherInfo { F with OtherInfo := none })
    ∧ (partsFromUserPtrs { F with Id := some 0 } = partsFromUserPtrs { F with Id := none }
      ∧ whereClauseFromUserPtrs { F with Id := some 0 }
        = whereClauseFromUserPtrs { F with Id := none }) := by
  refine ⟨?_, ?_, ?_, ?_, ?_, ⟨rfl, rfl, rfl, rfl, rfl⟩, Id_zero_as_absent F⟩
  · obtain ⟨h1, h2⟩ := Email_empty_inserted F
    exact ⟨h1, h2, ne_of_inserted_fragment _ _ _ _ _ h1 h2 (by decide)⟩
  · obtain ⟨h1, h2⟩ := Username_empty_inserted F
    exact ⟨h1, h2, ne_of_inserted_fragment _ _ _ _ _ h1 h2 (by decide)⟩
  · obtain ⟨h1, h2⟩ := FirstName_empty_inserted F
    exact ⟨h1, h2, ne_of_inserted_fragment _ _ _ _ _ h1 h2 (by decide)⟩
  · obtain ⟨h1, h2⟩ := LastName_empty_inserted F
    exact ⟨h1, h2, ne_of_inserted_fragment _ _ _ _ _ h1 h2 (by decide)⟩
  · obtain ⟨h1, h2⟩ := OtherInfo_empty_inserted F
    exact ⟨h1, h2, ne_of_inserted_fragment _ _ _ _ _ h1 h2 (by decide)⟩

end AuthServer
